import Mathlib

/-!
Formal model of the Chainlit / Microsoft Agents channel bridge
(`backend/chainlit/msagents/app.py`).

The Python module is shallowly embedded: every function relevant to the
verified properties is translated into an executable Lean definition.
External collaborators (the MSAL token cache, the HTTP fetcher, the
mimetype guesser, the uuid5 digest, the persistence layer) are passed in
as explicit function arguments, so each definition is a pure function of
its inputs.  Python `None` becomes `Option.none`; Python exceptions become
`Except.error`; channel network calls become values of an `Effect` trace.
-/

set_option maxHeartbeats 1000000

namespace MsAgents

/-- Bytes of a file, as natural numbers below 256. -/
abbrev Bytes := List Nat

/-- Python `str(x)` applied to an `Optional[str]`: `None` renders as `"None"`.
Used because `f"data:{mime};base64,..."` interpolates `None` as the text
`None`. -/
def pyStrOfOpt : Option String → String
  | none => "None"
  | some s => s

/-- The base64 alphabet, in order. -/
def base64Chars : List Char :=
  "ABCDEFGHIJKLMNOPQRSTUVWXYZabcdefghijklmnopqrstuvwxyz0123456789+/".data

/-- Character for a 6-bit group. -/
def b64char (n : Nat) : Char := base64Chars.getD n 'A'

/-- RFC 4648 base64 of a byte list (what Python's `base64.b64encode`
produces), chunked three bytes at a time with `=` padding. -/
def base64EncodeList : Bytes → List Char
  | [] => []
  | [a] => [b64char (a / 4), b64char (a % 4 * 16), '=', '=']
  | [a, b] => [b64char (a / 4), b64char (a % 4 * 16 + b / 16), b64char (b % 16 * 4), '=']
  | a :: b :: c :: rest =>
      b64char (a / 4) :: b64char (a % 4 * 16 + b / 16) ::
      b64char (b % 16 * 4 + c / 64) :: b64char (c % 64) :: base64EncodeList rest

/-- String form of the base64 encoding. -/
def base64Encode (bs : Bytes) : String := String.mk (base64EncodeList bs)

/-- A feedback button on the hero card (`CardAction` with a
`{feedback, step_id}` value payload, as built in `send_step`). -/
structure CardActionM where
  type : String
  title : String
  text : String
  feedback : String
  step_id : String
deriving DecidableEq

/-- The hero card content carried by a card attachment. -/
structure HeroCardM where
  buttons : List CardActionM
deriving DecidableEq

/-- An outbound channel `Attachment`: either a file (content type / url /
name) or a hero card (`content`). -/
structure AttachmentM where
  content_type : Option String := none
  content_url : Option String := none
  name : Option String := none
  content : Option HeroCardM := none
deriving DecidableEq

/-- An outbound channel `Activity` as constructed by this module. -/
structure ActivityOut where
  type : String
  id : Option String := none
  text : Option String := none
  attachments : List AttachmentM := []
  fromProp : Option String := none
  recipient : Option String := none
  conversation : Option String := none
deriving DecidableEq

/-- A call on the turn context: `send_activity` or `update_activity`. -/
inductive ChannelCall where
  | send (a : ActivityOut)
  | update (a : ActivityOut)
deriving DecidableEq

/-- An element dict as received by `MsAgentsEmitter.send_element`
(`ElementDict` keys actually read by the code). -/
structure ElementDictM where
  display : Option String := none
  chainlitKey : Option String := none
  name : Option String := none
  mime : Option String := none
  url : Option String := none
deriving DecidableEq

/-- A persisted file entry of `session.files` (only the `path` key is
read by `send_element`). -/
structure PersistedFileM where
  path : String
deriving DecidableEq

/-- `MsAgentsEmitter.send_element`, translated line by line.

* `guessExtension` stands for `mimetypes.guess_extension`;
* `readFile` stands for reading the persisted file's bytes from disk;
* `files` is `session.files` as an association list keyed by chainlit key.

Note the source initialises `mime = None` and only assigns
`mime = element_dict.get("mime")` *inside* the `if persisted_file:` branch,
yet tests `if mime:` *before* that assignment; the model reproduces this
faithfully (`mime0` below is always `none` at the extension check). -/
def send_element (guessExtension : String → Option String)
    (readFile : String → Bytes)
    (files : List (String × PersistedFileM))
    (e : ElementDictM) : List ChannelCall :=
  if e.display ≠ some "inline" then []
  else
    let persisted_file := files.lookup (e.chainlitKey.getD "")
    let mime0 : Option String := none
    let element_name := e.name.getD "Untitled"
    let element_name :=
      match mime0 with
      | some m =>
          match guessExtension m with
          | some ext => element_name ++ ext
          | none => element_name
      | none => element_name
    match persisted_file with
    | some pf =>
        let mime := e.mime
        let content_url :=
          "data:" ++ pyStrOfOpt mime ++ ";base64," ++ base64Encode (readFile pf.path)
        [ChannelCall.send
          { type := "message",
            attachments := [{ content_type := mime, content_url := some content_url,
                              name := some element_name }] }]
    | none =>
        match e.url with
        | some u =>
            if u = "" then []
            else
              [ChannelCall.send
                { type := "message",
                  attachments := [{ content_type := mime0, content_url := some u,
                                    name := some element_name }] }]
        | none => []

/-- A step dict as received by `MsAgentsEmitter.send_step` (keys actually
read by the code). -/
structure StepRec where
  type : String
  id : String
  output : Option String := none
deriving DecidableEq

/-- `MsAgentsEmitter.send_step`, translated line by line.

* `hasDataLayer` stands for `get_data_layer()` returning a truthy layer;
* `currentRun` stands for `context.current_run` (its id when present). -/
def send_step (hasDataLayer : Bool) (currentRun : Option String)
    (step : StepRec) : List ChannelCall :=
  if step.type ≠ "assistant_message" then []
  else
    let is_message := step.type = "user_message" ∨ step.type = "assistant_message"
    let is_empty_output := step.output.getD "" = ""
    if is_empty_output ∨ ¬ is_message then []
    else
      let reply : ActivityOut := { type := "message", text := some (step.output.getD "") }
      let reply :=
        if hasDataLayer then
          let scorable_id := currentRun.getD step.id
          let like_button : CardActionM :=
            { type := "messageBack", title := "👍", text := "like",
              feedback := "like", step_id := scorable_id }
          let dislike_button : CardActionM :=
            { type := "messageBack", title := "👎", text := "dislike",
              feedback := "dislike", step_id := scorable_id }
          { reply with
            attachments := [{ content_type := some "application/vnd.microsoft.card.hero",
                              content := some { buttons := [like_button, dislike_button] } }] }
        else reply
      [ChannelCall.send reply]

/-- An MSAL acquisition result dict (the keys read by
`_BotTokenProvider.get_access_token`). -/
structure TokenResult where
  access_token : Option String := none
  error : Option String := none
  error_description : Option String := none
deriving DecidableEq

deriving instance DecidableEq for Except

/-- Observable outcome of `get_access_token`: which acquisition paths were
invoked, and the returned token or raised error message. -/
structure TokenOutcome where
  silentAttempted : Bool
  clientInvoked : Bool
  outcome : Except String String
deriving DecidableEq

/-- The `"access_token" in result` check and the error message raised when
the chosen MSAL result carries no token (`ValueError` in the source; the
spec's `TokenAcquisitionError`). -/
def extractToken (r : TokenResult) : Except String String :=
  match r.access_token with
  | some t => Except.ok t
  | none =>
      Except.error
        ("Failed to acquire token: " ++ r.error_description.getD (r.error.getD "unknown"))

/-- `_BotTokenProvider.get_access_token`, translated line by line.

* `silentCache` stands for what `acquire_token_silent` would return
  (`none` = cache miss);
* `forClient` stands for what `acquire_token_for_client` would return. -/
def get_access_token (silentCache : Option TokenResult) (forClient : TokenResult)
    (force_refresh : Bool) : TokenOutcome :=
  let result : Option TokenResult := if force_refresh then none else silentCache
  match result with
  | some r =>
      { silentAttempted := !force_refresh, clientInvoked := false, outcome := extractToken r }
  | none =>
      { silentAttempted := !force_refresh, clientInvoked := true, outcome := extractToken forClient }

/-- Outcome of `CloudAdapter.process`: either an early `unauthorized`
response, or the generic pipeline (`self.process_request`) is invoked with
the validated claims identity (`none` in open/dev mode).  Turn processing,
session creation and every downstream collaborator live behind the
`pipeline` constructor. -/
inductive ProcessOutcome where
  | unauthorized
  | pipeline (claims : Option String)
deriving DecidableEq

/-- Python truthiness of a string (empty string is falsy). -/
def strTruthy (s : String) : Bool := s ≠ ""

/-- Python truthiness of an `Optional[str]`. -/
def optStrTruthy : Option String → Bool
  | none => false
  | some s => s ≠ ""

/-- `CloudAdapter.process`, translated line by line.

* `validate` stands for `JwtTokenValidator.validate_token` (`none` = the
  validator raised `ValueError`);
* `client_id` is `self._auth_config.CLIENT_ID`;
* `authHeader` is `request.headers.get("Authorization", "")` before the
  default is applied (a missing header becomes `""`). -/
def CloudAdapter_process (validate : String → Option String)
    (client_id : Option String) (authHeader : Option String) : ProcessOutcome :=
  let auth_header := authHeader.getD ""
  if strTruthy auth_header && auth_header.startsWith "Bearer " then
    let token := (auth_header.splitOn " ").getD 1 ""
    match validate token with
    | none => ProcessOutcome.unauthorized
    | some ci => ProcessOutcome.pipeline (some ci)
  else if optStrTruthy client_id then ProcessOutcome.unauthorized
  else ProcessOutcome.pipeline none

/-- A channel `ChannelAccount` (sender identity). -/
structure ChannelAccountM where
  id : String
  name : String
deriving DecidableEq

/-- The fields of a chainlit `User` as constructed by `get_user`:
`identifier` plus the `{name, id}` metadata. -/
structure UserRec where
  identifier : String
  metaName : String
  metaId : String
deriving DecidableEq

/-- A host user: the in-memory `User` built by `get_user`, or a
`PersistedUser` returned by the data layer's `create_user`. -/
inductive HostUser where
  | inMemory (u : UserRec)
  | persisted (u : UserRec) (dbId : String)
deriving DecidableEq

/-- The `identifier` of a host user. -/
def HostUser.identifier : HostUser → String
  | .inMemory u => u.identifier
  | .persisted u _ => u.identifier

/-- Behaviour of `data_layer.create_user` for one call: `Except.error` is a
raised exception (logged and swallowed by `get_user`), `Except.ok none` is
a falsy return, `Except.ok (some pu)` is a persisted user. -/
abbrev CreateUserFn := UserRec → Except Unit (Option HostUser)

/-- The `users_by_msagents_id` cache: an association list where assignment
is modelled by shadowing (the most recent binding for a key wins, as
`List.lookup` returns the first match). -/
abbrev UserCache := List (String × HostUser)

/-- `get_user`, translated line by line.  Returns the user the call yields
together with the updated `users_by_msagents_id` cache.

* `dl = none` stands for `get_data_layer()` returning nothing. -/
def get_user (dl : Option CreateUserFn) (cache : UserCache)
    (acc : ChannelAccountM) : HostUser × UserCache :=
  match cache.lookup acc.id with
  | some u => (u, cache)
  | none =>
      let u0 : UserRec := { identifier := "msagents_" ++ acc.name,
                            metaName := acc.name, metaId := acc.id }
      let user := HostUser.inMemory u0
      let cache1 := (acc.id, user) :: cache
      match dl with
      | none => (user, cache1)
      | some create_user =>
          match create_user u0 with
          | Except.error _ => (user, cache1)
          | Except.ok none => (user, cache1)
          | Except.ok (some pu) => (pu, (acc.id, pu) :: cache1)

/-- The structured `content` payload of an inbound attachment, when the
payload is a dict (`isinstance(attachment.content, dict)`).  Only the
`downloadUrl` key is read. -/
structure InContent where
  downloadUrl : Option String := none
deriving DecidableEq

/-- An inbound channel attachment as read by `download_msagents_files`:
`content = none` models a payload that is not a dict (absent or a string). -/
structure InAttachment where
  name : Option String := none
  content : Option InContent := none
deriving DecidableEq

/-- A file dict produced by `session.persist_file`
(`{id, name, path, type}`). -/
structure FileDict where
  id : String
  name : Option String
  path : String
  type : String
deriving DecidableEq

/-- The file-persistence state of an `HTTPSession`: the `session.files`
map (kept in insertion order) and a counter for fresh ids. -/
structure SessionFiles where
  files : List FileDict := []
  nextId : Nat := 0
deriving DecidableEq

/-- `session.persist_file(name=..., mime=..., content=...)`: stores a fresh
file dict in `session.files` and returns it. -/
def persist_file (s : SessionFiles) (name : Option String) (mime : String) :
    FileDict × SessionFiles :=
  let fid := "file-" ++ toString s.nextId
  let fd : FileDict := { id := fid, name := name, path := "/files/" ++ fid, type := mime }
  (fd, { files := s.files ++ [fd], nextId := s.nextId + 1 })

/-- Error raised inside `download_msagents_files`: `httpx` raises a
`TypeError` when handed `None` as a URL (an attachment whose dict content
has no `downloadUrl`). -/
inductive DlError where
  | invalidUrl
deriving DecidableEq

/-- A chainlit element built by `Element.from_dict` at the end of
`download_msagents_files`. -/
structure DownloadedElement where
  id : String
  name : Option String
  path : String
  chainlitKey : String
  display : String
  type : String
deriving DecidableEq

/-- Result of `download_msagents_files`: the URLs actually fetched (the
network activity), the session file state after persisting the successful
downloads, and the produced file elements. -/
structure DownloadOutcome where
  requests : List String
  session : SessionFiles
  elements : List DownloadedElement
deriving DecidableEq

/-- `attachment.content.get("downloadUrl")` on one filtered attachment:
error when the dict has no URL (`client.get(None)` raises). -/
def attachmentUrlE (a : InAttachment) : Except DlError String :=
  match a.content with
  | some c =>
      match c.downloadUrl with
      | some u => Except.ok u
      | none => Except.error DlError.invalidUrl
  | none => Except.error DlError.invalidUrl

/-- The url-extraction pass over the filtered attachments (the list
comprehension building `download_coros` combined with `asyncio.gather`'s
propagation of the first raised exception): succeeds with every download
URL in order, or fails on the first attachment whose dict content lacks
one. -/
def mapMUrls : List InAttachment → Except DlError (List String)
  | [] => Except.ok []
  | a :: t =>
      match attachmentUrlE a with
      | Except.error e => Except.error e
      | Except.ok u =>
          match mapMUrls t with
          | Except.error e => Except.error e
          | Except.ok us => Except.ok (u :: us)

/-- Python truthiness of a fetch result: `None` (non-200) and the empty
byte string `b""` are both falsy, so `if file_bytes:` skips them alike. -/
def bytesTruthy : Option Bytes → Bool
  | none => false
  | some bs => !bs.isEmpty

/-- One iteration of the `for idx, file_bytes in enumerate(...)` loop:
`if file_bytes:` skips a failed download and an empty-body response
(both falsy), and persists a truthy one. -/
def gatherStep (guessMime : Bytes → Option String)
    (acc : SessionFiles × List FileDict) (p : InAttachment × Option Bytes) :
    SessionFiles × List FileDict :=
  match p.2 with
  | none => acc
  | some bs =>
      if bs.isEmpty then acc
      else
        let mime_type := (guessMime bs).getD "application/octet-stream"
        let (fd, s') := persist_file acc.1 p.1.name mime_type
        (s', acc.2 ++ [fd])

/-- The `Element.from_dict` record built for one persisted file dict at
the end of `download_msagents_files`. -/
def elemOfFile (inferType : String → String) (f : FileDict) : DownloadedElement :=
  { id := f.id, name := f.name, path := f.path, chainlitKey := f.id,
    display := "inline", type := inferType f.type }

/-- `download_msagents_files`, translated line by line.

* `net url` stands for the `httpx` GET: `some bytes` for a 200 response,
  `none` for a non-200 response (the source returns `None`);
* `guessMime` stands for `filetype.guess_mime`;
* `inferType` stands for `Element.infer_type_from_mime`.

`asyncio.gather` preserves argument order, so the downloads are modelled
as the ordered list `urls.map net`. -/
def download_msagents_files (net : String → Option Bytes)
    (guessMime : Bytes → Option String) (inferType : String → String)
    (sess : SessionFiles) (attachments : List InAttachment) :
    Except DlError DownloadOutcome :=
  if attachments.isEmpty then Except.ok { requests := [], session := sess, elements := [] }
  else
    let atts := attachments.filter (fun a => a.content.isSome)
    match mapMUrls atts with
    | Except.error e => Except.error e
    | Except.ok urls =>
        let file_bytes_list := urls.map net
        let (sess', file_refs) := (atts.zip file_bytes_list).foldl (gatherStep guessMime) (sess, [])
        let files_dicts := file_refs.filter (fun f => sess'.files.any (fun g => g.id = f.id))
        let elements := files_dicts.map (elemOfFile inferType)
        Except.ok { requests := urls, session := sess', elements := elements }

/-- A calendar date, as produced by `datetime.today()`. -/
structure CalDate where
  year : Nat
  month : Nat
  day : Nat
deriving DecidableEq

/-- A date `datetime.today()` can return, rendered with a four-digit year
by `strftime` (Python's `datetime` caps years at 9999; today's years have
four digits). -/
abbrev ValidDate (d : CalDate) : Prop :=
  1000 ≤ d.year ∧ d.year ≤ 9999 ∧ 1 ≤ d.month ∧ d.month ≤ 12 ∧ 1 ≤ d.day ∧ d.day ≤ 31

/-- The decimal digit character for `n` (callers pass values below 10). -/
def digitChar (n : Nat) : Char :=
  if n = 0 then '0' else if n = 1 then '1' else if n = 2 then '2'
  else if n = 3 then '3' else if n = 4 then '4' else if n = 5 then '5'
  else if n = 6 then '6' else if n = 7 then '7' else if n = 8 then '8' else '9'

/-- `datetime.today().strftime("%Y-%m-%d")`: four year digits, a dash, two
zero-padded month digits, a dash, two zero-padded day digits. -/
def formatDate (d : CalDate) : String :=
  String.mk
    [digitChar (d.year / 1000 % 10), digitChar (d.year / 100 % 10),
     digitChar (d.year / 10 % 10), digitChar (d.year % 10), '-',
     digitChar (d.month / 10 % 10), digitChar (d.month % 10), '-',
     digitChar (d.day / 10 % 10), digitChar (d.day % 10)]

/-- The name string hashed into the thread id:
`turn_context.activity.conversation.id + datetime.today().strftime("%Y-%m-%d")`. -/
def threadUuidName (convId : String) (d : CalDate) : String :=
  convId ++ formatDate d

/-- The deterministic thread id of `process_msagents_message`:
`str(uuid.uuid5(uuid.NAMESPACE_DNS, conversation_id + date))`.  The
namespace-UUID digest (SHA-1 under `NAMESPACE_DNS`, truncated to a UUID)
is abstracted as the function argument `u5`. -/
def process_thread_id (u5 : String → String) (convId : String) (d : CalDate) : String :=
  u5 (threadUuidName convId d)

/-- Errors of the message-handling path: `noneAttr` is Python's
`AttributeError` from touching an attribute of `None`
(`activity.value.get(...)` with `value = None`, or `activity.text.strip()`
with `text = None`). -/
inductive AppError where
  | noneAttr
  | download (e : DlError)
deriving DecidableEq

/-- One observable call on an external collaborator, in program order.
`channel` wraps `send_activity` / `update_activity`; the rest are the
persistence layer, the session bridge and the chat lifecycle hooks. -/
inductive Effect where
  | channel (c : ChannelCall)
  | upsertFeedback (forId : Option String) (value : Nat)
  | getUserCall (chanId : String) (chanName : String)
  | createSession (sid : String) (threadId : String)
  | fetchUrl (u : String)
  | onChatStart
  | submitMessage (content : String) (author : Option String)
  | onMessage
  | onChatEnd
  | updateThread (threadId : String) (name : String)
  | deleteSession
deriving DecidableEq

/-- The structured `activity.value` payload of a feedback click (only
`step_id` is read; the `feedback` key is carried along). -/
structure FeedbackValue where
  feedback : Option String := none
  step_id : Option String := none
deriving DecidableEq

/-- The fields of an inbound `Activity` read by `handle_message` and
`process_msagents_message`.  `value = none` and `text = none` model the
attributes being `None`. -/
structure InActivity where
  type : String
  text : Option String := none
  value : Option FeedbackValue := none
  reply_to_id : Option String := none
  attachments : List InAttachment := []
  fromId : String := ""
  fromName : String := ""
  recipientId : String := ""
  convId : String := ""

/-- The ambient collaborators and configuration of one turn:
which chainlit hooks are registered, whether a data layer is configured,
whether `get_user` yielded a `PersistedUser`, the fresh `uuid4` session
id, the abstracted uuid5 digest, today's date, and the download oracles. -/
structure BridgeEnv where
  hasDataLayer : Bool
  userPersisted : Bool
  hasOnChatStart : Bool
  hasOnMessage : Bool
  hasOnChatEnd : Bool
  userMetaName : Option String
  uuid5dns : String → String
  today : CalDate
  freshSessionId : String
  net : String → Option Bytes
  guessMime : Bytes → Option String
  inferType : String → String

/-- `clean_content`: `activity.text.strip()`; raises `AttributeError` when
`text` is `None`. -/
def clean_content (text : Option String) : Except AppError String :=
  match text with
  | none => Except.error AppError.noneAttr
  | some t => Except.ok t.trim

/-- The collaborator-call trace of `process_msagents_message`, in program
order: resolve the user, create the session bound to the deterministic
thread id, download attachments, run the chat lifecycle around the
submitted user message, best-effort-update the thread, and tear the
session down.  The chainlit-internal collaborators (`Message.send`,
lifecycle hooks, `update_thread`) appear as opaque effects; the decisions
of when each is invoked are the source's. -/
def process_msagents_message_trace (env : BridgeEnv) (thread_name : String)
    (a : InActivity) : Except AppError (List Effect) := do
  let threadId := process_thread_id env.uuid5dns a.convId env.today
  let text ← clean_content a.text
  let dres ←
    match download_msagents_files env.net env.guessMime env.inferType
        { files := [], nextId := 0 } a.attachments with
    | Except.error e => Except.error (AppError.download e)
    | Except.ok r => Except.ok r
  Except.ok
    ([Effect.getUserCall a.fromId a.fromName,
      Effect.createSession env.freshSessionId threadId]
     ++ dres.requests.map Effect.fetchUrl
     ++ (if env.hasOnChatStart then [Effect.onChatStart] else [])
     ++ [Effect.submitMessage text env.userMetaName]
     ++ (if env.hasOnMessage then [Effect.onMessage] else [])
     ++ (if env.hasOnChatEnd then [Effect.onChatEnd] else [])
     ++ (if env.hasDataLayer && env.userPersisted
         then [Effect.updateThread threadId thread_name] else [])
     ++ [Effect.deleteSession])

/-- `handle_message`, translated line by line.  A `"like"`/`"dislike"`
message is dispatched to the feedback branch on its text alone; any other
message gets a typing indicator and full processing; non-message
activities do nothing. -/
def handle_message (env : BridgeEnv) (a : InActivity) : Except AppError (List Effect) :=
  if a.type = "message" then
    if a.text = some "like" ∨ a.text = some "dislike" then
      let feedback_value : Nat := if a.text = some "dislike" then 0 else 1
      match a.value with
      | none => Except.error AppError.noneAttr
      | some v =>
          let step_id := v.step_id
          let fb := if env.hasDataLayer then [Effect.upsertFeedback step_id feedback_value] else []
          let updated_text := if a.text = some "like" then "👍" else "👎"
          Except.ok
            (fb ++ [Effect.channel (ChannelCall.update
              { type := "message", id := a.reply_to_id,
                text := some updated_text, attachments := [] })])
    else
      let typing_activity : ActivityOut :=
        { type := "typing", fromProp := some a.recipientId,
          recipient := some a.fromId, conversation := some a.convId }
      let thread_name := a.fromName ++ " Teams DM " ++ formatDate env.today
      match process_msagents_message_trace env thread_name a with
      | Except.error e => Except.error e
      | Except.ok tr => Except.ok (Effect.channel (ChannelCall.send typing_activity) :: tr)
  else Except.ok []

/-- The `content.get("downloadUrl")` view of an attachment as an option:
`some u` exactly when the payload is a dict carrying a download URL. -/
def attUrlOpt (a : InAttachment) : Option String :=
  a.content.bind (fun c => c.downloadUrl)

/-- Rendering of the claim's expectation: the download URLs exposed by the
input attachments, in input order. -/
def spec_download_urls (attachments : List InAttachment) : List String :=
  attachments.filterMap attUrlOpt

/-- Rendering of the claim's expectation: the names of the attachments
whose download URL fetch succeeds with truthy content (a 200 response
with a non-empty body), in input order — the result holds exactly one
element per such attachment. -/
def spec_success_names (net : String → Option Bytes)
    (attachments : List InAttachment) : List (Option String) :=
  attachments.filterMap (fun a =>
    (attUrlOpt a).bind (fun u => if bytesTruthy (net u) then some a.name else none))

/-- A concrete turn environment used by the witness theorems. -/
def sampleEnv : BridgeEnv :=
  { hasDataLayer := true, userPersisted := false, hasOnChatStart := false,
    hasOnMessage := false, hasOnChatEnd := false, userMetaName := none,
    uuid5dns := fun s => s, today := { year := 2026, month := 10, day := 12 },
    freshSessionId := "sess-1", net := fun _ => none,
    guessMime := fun _ => none, inferType := fun t => t }

/-- C1 — code-bug evidence.  The claim says `send_element` appends a
guessed file extension to the element name whenever the element's mime
type is known and the name lacks an extension.  In the source, the
`if mime:` test at line 65 precedes the only assignment `mime =
element_dict.get("mime")` (line 71, inside the persisted-file branch), so
`mime` is always `None` at the test and no extension is ever appended.
Here: an inline element named `"photo"` (no extension) with known mime
`"image/png"` whose extension guesser would return `".png"`, backed by a
persisted file with bytes `[1, 2, 3]`.  The produced attachment is named
`"photo"`, not `"photo.png"`; its data URL does embed the bytes as base64
under the declared mime type, as the rest of the claim says. -/
theorem C1_extension_never_appended :
    send_element (fun m => if m = "image/png" then some ".png" else none)
      (fun _ => [1, 2, 3]) [("key1", { path := "/tmp/f1" })]
      { display := some "inline", chainlitKey := some "key1", name := some "photo",
        mime := some "image/png", url := none }
    = [ChannelCall.send
        { type := "message",
          attachments := [{ content_type := some "image/png",
                            content_url := some "data:image/png;base64,AQID",
                            name := some "photo" }] }]
    ∧ (fun m => if m = "image/png" then some ".png" else none) "image/png" = some ".png" := by
  exact ⟨rfl, rfl⟩

/-- C5: `send_step` performs zero channel calls when the step's type is
not `assistant_message` or its output is empty (`None` or `""`); for an
`assistant_message` step with non-empty output and a configured data
layer, it performs exactly one send carrying exactly one hero-card
attachment with exactly two buttons, whose payload `step_id` is the
current run's id when a current run exists and otherwise the step's own
id. -/
theorem C5_send_step_shape (dl : Bool) (cr : Option String) (s : StepRec) :
    ((s.type ≠ "assistant_message" ∨ s.output.getD "" = "") → send_step dl cr s = []) ∧
    (∀ o, s.type = "assistant_message" → s.output = some o → o ≠ "" →
      send_step true cr s =
        [ChannelCall.send
          { type := "message", text := some o,
            attachments := [{ content_type := some "application/vnd.microsoft.card.hero",
                              content := some { buttons :=
                                [{ type := "messageBack", title := "👍", text := "like",
                                   feedback := "like", step_id := cr.getD s.id },
                                 { type := "messageBack", title := "👎", text := "dislike",
                                   feedback := "dislike", step_id := cr.getD s.id }] } }] }]) := by
  constructor
  · intro h
    unfold send_step
    rcases h with h | h
    · simp [h]
    · by_cases ht : s.type = "assistant_message"
      · simp [ht, h]
      · simp [ht]
  · intro o ht ho hne
    unfold send_step
    simp [ht, ho, hne]

/-- Witness for C5 at a concrete no-op step and a concrete scored step. -/
theorem C5_send_step_shape_witness :
    send_step true (some "run-1") { type := "run", id := "s9", output := some "hi" } = [] ∧
    send_step true (some "run-1") { type := "assistant_message", id := "s9", output := some "hi" } =
      [ChannelCall.send
        { type := "message", text := some "hi",
          attachments := [{ content_type := some "application/vnd.microsoft.card.hero",
                            content := some { buttons :=
                              [{ type := "messageBack", title := "👍", text := "like",
                                 feedback := "like", step_id := "run-1" },
                               { type := "messageBack", title := "👎", text := "dislike",
                                 feedback := "dislike", step_id := "run-1" }] } }] }] := by
  constructor
  · exact (C5_send_step_shape true (some "run-1")
      { type := "run", id := "s9", output := some "hi" }).1 (Or.inl (by decide))
  · exact (C5_send_step_shape true (some "run-1")
      { type := "assistant_message", id := "s9", output := some "hi" }).2 "hi" rfl rfl (by decide)

/-- C6: an inbound request that carries no bearer token while a client id
is configured is answered `unauthorized` before the request pipeline is
invoked: the result is not the `pipeline` outcome, so no session creation,
user mapping, download or channel send can occur. -/
theorem C6_unauthenticated_rejected (validate : String → Option String)
    (client_id : Option String) (authHeader : Option String)
    (hcid : optStrTruthy client_id = true)
    (hnob : (strTruthy (authHeader.getD "") &&
             (authHeader.getD "").startsWith "Bearer ") = false) :
    CloudAdapter_process validate client_id authHeader = ProcessOutcome.unauthorized := by
  unfold CloudAdapter_process
  simp [hnob, hcid]

/-- Witness for C6: missing Authorization header, configured client id. -/
theorem C6_unauthenticated_rejected_witness :
    optStrTruthy (some "app-id") = true ∧
    (strTruthy ((none : Option String).getD "") &&
     ((none : Option String).getD "").startsWith "Bearer ") = false ∧
    CloudAdapter_process (fun _ => none) (some "app-id") none = ProcessOutcome.unauthorized := by
  refine ⟨by decide, by decide, ?_⟩
  exact C6_unauthenticated_rejected (fun _ => none) (some "app-id") none (by decide) (by decide)

/-- C7: `get_access_token` attempts the cache-backed silent acquisition
first unless `force_refresh` (which always skips it); it performs the full
client-credential acquisition exactly when the silent path yields nothing;
a silent-cache hit never invokes the full flow and returns the cached
token; when the chosen result carries no token it fails with the
acquisition error carrying the upstream error code/description. -/
theorem C7_token_flow (sc : Option TokenResult) (fc : TokenResult) (fr : Bool) :
    ((get_access_token sc fc true).silentAttempted = false ∧
     (get_access_token sc fc true).clientInvoked = true) ∧
    ((get_access_token sc fc false).silentAttempted = true) ∧
    ((get_access_token sc fc fr).clientInvoked = true ↔ (fr = true ∨ sc = none)) ∧
    (∀ r, sc = some r →
      (get_access_token sc fc false).clientInvoked = false ∧
      (∀ t, r.access_token = some t →
        (get_access_token sc fc false).outcome = Except.ok t) ∧
      (r.access_token = none →
        (get_access_token sc fc false).outcome =
          Except.error ("Failed to acquire token: " ++
            r.error_description.getD (r.error.getD "unknown")))) ∧
    ((fr = true ∨ sc = none) → fc.access_token = none →
      (get_access_token sc fc fr).outcome =
        Except.error ("Failed to acquire token: " ++
          fc.error_description.getD (fc.error.getD "unknown"))) := by
  refine ⟨⟨?_, ?_⟩, ?_, ?_, ?_, ?_⟩
  · cases sc <;> rfl
  · cases sc <;> rfl
  · cases fr <;> cases sc <;> simp [get_access_token]
  · cases fr <;> cases sc <;> simp [get_access_token]
  · intro r hr
    subst hr
    refine ⟨rfl, ?_, ?_⟩
    · intro t ht
      simp [get_access_token, extractToken, ht]
    · intro ht
      simp [get_access_token, extractToken, ht]
  · intro h ht
    rcases h with h | h
    · subst h
      cases sc <;> simp [get_access_token, extractToken, ht]
    · subst h
      cases fr <;> simp [get_access_token, extractToken, ht]

/-- Witness for C7: a cache hit with a token, evaluated concretely. -/
theorem C7_token_flow_witness :
    (get_access_token (some { access_token := some "tok-1" })
      { error := some "e", error_description := some "d" } false).clientInvoked = false ∧
    (get_access_token (some { access_token := some "tok-1" })
      { error := some "e", error_description := some "d" } false).outcome = Except.ok "tok-1" := by
  have h := (C7_token_flow (some { access_token := some "tok-1" })
    { error := some "e", error_description := some "d" } false).2.2.2.1
    { access_token := some "tok-1" } rfl
  exact ⟨h.1, h.2.1 "tok-1" rfl⟩

/-- C2: an inbound message turn whose text is exactly `"like"` or
`"dislike"` and whose structured value carries a `step_id` makes the
bridge record feedback 1 (like) or 0 (dislike) against that `step_id`
through the persistence layer, and issue an update — not a new send — of
the original message with its text replaced by the thumbs emoji and its
attachments set to `[]`; the trace contains no send, no session creation
and no chat lifecycle callback. -/
theorem C2_feedback_turn (env : BridgeEnv) (a : InActivity) (v : FeedbackValue) (sid : String)
    (hd : env.hasDataLayer = true) (ht : a.type = "message")
    (hv : a.value = some v) (hsid : v.step_id = some sid) :
    (a.text = some "like" →
      handle_message env a = Except.ok
        [Effect.upsertFeedback (some sid) 1,
         Effect.channel (ChannelCall.update
           { type := "message", id := a.reply_to_id, text := some "👍", attachments := [] })]) ∧
    (a.text = some "dislike" →
      handle_message env a = Except.ok
        [Effect.upsertFeedback (some sid) 0,
         Effect.channel (ChannelCall.update
           { type := "message", id := a.reply_to_id, text := some "👎", attachments := [] })]) ∧
    (∀ tr, (a.text = some "like" ∨ a.text = some "dislike") →
      handle_message env a = Except.ok tr →
      (∀ act, Effect.channel (ChannelCall.send act) ∉ tr) ∧
      (∀ s t, Effect.createSession s t ∉ tr) ∧
      Effect.onChatStart ∉ tr ∧ Effect.onMessage ∉ tr ∧ Effect.onChatEnd ∉ tr) := by
  have hlike : a.text = some "like" →
      handle_message env a = Except.ok
        [Effect.upsertFeedback (some sid) 1,
         Effect.channel (ChannelCall.update
           { type := "message", id := a.reply_to_id, text := some "👍", attachments := [] })] := by
    intro h
    unfold handle_message
    simp [ht, h, hv, hsid, hd]
  have hdis : a.text = some "dislike" →
      handle_message env a = Except.ok
        [Effect.upsertFeedback (some sid) 0,
         Effect.channel (ChannelCall.update
           { type := "message", id := a.reply_to_id, text := some "👎", attachments := [] })] := by
    intro h
    unfold handle_message
    simp [ht, h, hv, hsid, hd]
  refine ⟨hlike, hdis, ?_⟩
  intro tr htext heq
  rcases htext with h | h
  · rw [hlike h] at heq
    obtain rfl : tr = _ := (Except.ok.injEq _ _).mp heq.symm
    refine ⟨fun act => ?_, fun s t => ?_, ?_, ?_, ?_⟩ <;> simp
  · rw [hdis h] at heq
    obtain rfl : tr = _ := (Except.ok.injEq _ _).mp heq.symm
    refine ⟨fun act => ?_, fun s t => ?_, ?_, ?_, ?_⟩ <;> simp

/-- Witness for C2: a concrete like-click with `step_id = "s1"` and a
configured data layer. -/
theorem C2_feedback_turn_witness :
    handle_message sampleEnv
      { type := "message", text := some "like",
        value := some { feedback := some "like", step_id := some "s1" },
        reply_to_id := some "orig-1" }
    = Except.ok
        [Effect.upsertFeedback (some "s1") 1,
         Effect.channel (ChannelCall.update
           { type := "message", id := some "orig-1", text := some "👍", attachments := [] })] := by
  exact (C2_feedback_turn sampleEnv
    { type := "message", text := some "like",
      value := some { feedback := some "like", step_id := some "s1" },
      reply_to_id := some "orig-1" }
    { feedback := some "like", step_id := some "s1" } "s1" rfl rfl rfl rfl).1 rfl

/-- C9: an inbound message turn whose text is exactly `"like"` or
`"dislike"` but whose `activity.value` is absent is dispatched to the
feedback branch on its text alone, and fails there with the
`AttributeError` of reading `step_id` from `None`, instead of being
processed as a normal message. -/
theorem C9_feedback_without_value_errors (env : BridgeEnv) (a : InActivity)
    (ht : a.type = "message")
    (htext : a.text = some "like" ∨ a.text = some "dislike")
    (hv : a.value = none) :
    handle_message env a = Except.error AppError.noneAttr := by
  unfold handle_message
  rcases htext with h | h <;> simp [ht, h, hv]

/-- Witness for C9: a concrete `"dislike"` turn with no value payload. -/
theorem C9_feedback_without_value_errors_witness :
    handle_message sampleEnv { type := "message", text := some "dislike", value := none }
      = Except.error AppError.noneAttr := by
  exact C9_feedback_without_value_errors sampleEnv
    { type := "message", text := some "dislike", value := none } rfl (Or.inr rfl) rfl

/-- Looking a key up after consing a binding for that key. -/
theorem userCache_lookup_cons_self {k : String} {v : HostUser} {t : UserCache} :
    ((k, v) :: t).lookup k = some v := by
  simp [List.lookup]

/-- Looking a key up after consing a binding for a different key. -/
theorem userCache_lookup_cons_ne {k k' : String} {v : HostUser} {t : UserCache}
    (h : k ≠ k') : ((k', v) :: t).lookup k = t.lookup k := by
  have hb : (k == k') = false := beq_eq_false_iff_ne.mpr h
  simp [List.lookup, hb]

/-- After any `get_user` call, the cache holds the returned user under the
channel id. -/
theorem get_user_cached (dl : Option CreateUserFn) (cache : UserCache)
    (acc : ChannelAccountM) :
    ((get_user dl cache acc).2).lookup acc.id = some (get_user dl cache acc).1 := by
  unfold get_user
  cases hc : cache.lookup acc.id with
  | some u => simp [hc]
  | none =>
      cases dl with
      | none => simp [hc, userCache_lookup_cons_self]
      | some create_user =>
          cases hf : create_user ⟨"msagents_" ++ acc.name, acc.name, acc.id⟩ with
          | error e => simp [hc, hf, userCache_lookup_cons_self]
          | ok o => cases o <;> simp [hc, hf, userCache_lookup_cons_self]

/-- A `get_user` call that hits the cache returns the cached user and
leaves the cache untouched. -/
theorem get_user_hit (dl : Option CreateUserFn) (cache : UserCache)
    (acc : ChannelAccountM) (u : HostUser) (h : cache.lookup acc.id = some u) :
    get_user dl cache acc = (u, cache) := by
  unfold get_user
  simp [h]

/-- A `get_user` call for one channel id never touches the cache binding
of a different channel id. -/
theorem get_user_preserves_other (dl : Option CreateUserFn) (cache : UserCache)
    (acc2 : ChannelAccountM) (k : String) (hk : k ≠ acc2.id) :
    ((get_user dl cache acc2).2).lookup k = cache.lookup k := by
  unfold get_user
  cases hc : cache.lookup acc2.id with
  | some u => simp [hc]
  | none =>
      cases dl with
      | none => simp [hc, userCache_lookup_cons_ne hk]
      | some create_user =>
          cases hf : create_user ⟨"msagents_" ++ acc2.name, acc2.name, acc2.id⟩ with
          | error e => simp [hc, hf, userCache_lookup_cons_ne hk]
          | ok o => cases o <;> simp [hc, hf, userCache_lookup_cons_ne hk]

/-- C8: after a first completed `get_user` call for a channel identity,
every later call for the same identity — whatever the persistence layer
then does, including failing — returns the same host user and leaves the
cache unchanged; and calls for other identities never alter or remove the
cached binding, so one channel id maps to exactly one host user for the
cache's lifetime. -/
theorem C8_get_user_idempotent (dl1 dl2 : Option CreateUserFn) (cache : UserCache)
    (acc : ChannelAccountM) :
    (get_user dl2 (get_user dl1 cache acc).2 acc).1 = (get_user dl1 cache acc).1 ∧
    (get_user dl2 (get_user dl1 cache acc).2 acc).2 = (get_user dl1 cache acc).2 ∧
    (∀ (dl3 : Option CreateUserFn) (acc2 : ChannelAccountM), acc2.id ≠ acc.id →
      ((get_user dl3 (get_user dl1 cache acc).2 acc2).2).lookup acc.id
        = some (get_user dl1 cache acc).1) := by
  have hl := get_user_cached dl1 cache acc
  have h2 := get_user_hit dl2 _ acc _ hl
  refine ⟨by rw [h2], by rw [h2], ?_⟩
  intro dl3 acc2 hne
  rw [get_user_preserves_other dl3 _ acc2 acc.id (fun h => hne h.symm)]
  exact hl

/-- Witness for C8: first call with no data layer, second call with a
failing persistence layer, third call for a different channel id. -/
theorem C8_get_user_idempotent_witness :
    (get_user (some (fun _ => Except.error ())) (get_user none [] { id := "u1", name := "Ann" }).2
        { id := "u1", name := "Ann" }).1
      = (get_user none [] { id := "u1", name := "Ann" }).1 ∧
    ((get_user none (get_user none [] { id := "u1", name := "Ann" }).2
        { id := "u2", name := "Bob" }).2).lookup "u1"
      = some (get_user none [] { id := "u1", name := "Ann" }).1 := by
  refine ⟨(C8_get_user_idempotent none (some (fun _ => Except.error ())) []
    { id := "u1", name := "Ann" }).1, ?_⟩
  exact (C8_get_user_idempotent none none [] { id := "u1", name := "Ann" }).2.2 none
    { id := "u2", name := "Bob" } (by decide)

/-- A cache-missing `get_user` call with no data layer returns the freshly
built in-memory user and conses it onto the cache. -/
theorem get_user_miss_none (cache : UserCache) (acc : ChannelAccountM)
    (h : cache.lookup acc.id = none) :
    get_user none cache acc =
      (HostUser.inMemory { identifier := "msagents_" ++ acc.name,
                           metaName := acc.name, metaId := acc.id },
       (acc.id, HostUser.inMemory { identifier := "msagents_" ++ acc.name,
                                    metaName := acc.name, metaId := acc.id }) :: cache) := by
  unfold get_user
  simp [h]

/-- C10: every host user built by `get_user` carries identifier
`"msagents_"` followed by the channel user's display name, not the channel
id; hence two distinct channel ids with the same display name produce two
distinct cache entries (one per id, both present) whose users carry
identical identifiers. -/
theorem C10_identifier_from_name (cache : UserCache) (a1 a2 : ChannelAccountM)
    (h1 : cache.lookup a1.id = none) (h2 : cache.lookup a2.id = none)
    (hne : a2.id ≠ a1.id) (hnm : a2.name = a1.name) :
    ((get_user none cache a1).1).identifier = "msagents_" ++ a1.name ∧
    ((get_user none (get_user none cache a1).2 a2).1).identifier = "msagents_" ++ a2.name ∧
    ((get_user none (get_user none cache a1).2 a2).2).lookup a1.id
      = some (get_user none cache a1).1 ∧
    ((get_user none (get_user none cache a1).2 a2).2).lookup a2.id
      = some (get_user none (get_user none cache a1).2 a2).1 ∧
    ((get_user none cache a1).1).identifier
      = ((get_user none (get_user none cache a1).2 a2).1).identifier := by
  have hm1 := get_user_miss_none cache a1 h1
  have hmiss2 : ((get_user none cache a1).2).lookup a2.id = none := by
    rw [get_user_preserves_other none cache a1 a2.id hne]
    exact h2
  have hm2 := get_user_miss_none _ a2 hmiss2
  refine ⟨by rw [hm1]; rfl, by rw [hm2]; rfl, ?_, ?_, ?_⟩
  · rw [get_user_preserves_other none _ a2 a1.id (fun h => hne h.symm)]
    exact get_user_cached none cache a1
  · exact get_user_cached none _ a2
  · rw [hm2, hm1]
    simp [HostUser.identifier, hnm]

/-- Witness for C10: two channel ids `"u1"`, `"u2"` sharing the display
name `"Ann"`. -/
theorem C10_identifier_from_name_witness :
    ((get_user none [] { id := "u1", name := "Ann" }).1).identifier = "msagents_" ++ "Ann" ∧
    ((get_user none (get_user none [] { id := "u1", name := "Ann" }).2
        { id := "u2", name := "Ann" }).1).identifier = "msagents_" ++ "Ann" := by
  have h := C10_identifier_from_name [] { id := "u1", name := "Ann" }
    { id := "u2", name := "Ann" } rfl rfl (by decide) rfl
  exact ⟨h.1, h.2.1⟩

/-- Digit characters are distinct, so `digitChar` is injective below 10. -/
theorem digitChar_inj {a b : Nat} (ha : a < 10) (hb : b < 10)
    (h : digitChar a = digitChar b) : a = b := by
  interval_cases a <;> interval_cases b <;> revert h <;> decide

/-- String append is left-cancellative. -/
theorem string_append_left_cancel {a b c : String} (h : a ++ b = a ++ c) : b = c := by
  obtain ⟨la⟩ := a
  obtain ⟨lb⟩ := b
  obtain ⟨lc⟩ := c
  have h2 : la ++ lb = la ++ lc := congrArg String.data h
  exact congrArg String.mk (List.append_cancel_left h2)

/-- `strftime("%Y-%m-%d")` is injective on dates `datetime.today()` can
produce: the fixed-position digits determine year, month and day. -/
theorem formatDate_inj {d1 d2 : CalDate} (h1 : ValidDate d1) (h2 : ValidDate d2)
    (h : formatDate d1 = formatDate d2) : d1 = d2 := by
  obtain ⟨y1, m1, dd1⟩ := d1
  obtain ⟨y2, m2, dd2⟩ := d2
  obtain ⟨hy1a, hy1b, hm1a, hm1b, hd1a, hd1b⟩ := h1
  obtain ⟨hy2a, hy2b, hm2a, hm2b, hd2a, hd2b⟩ := h2
  dsimp only at hy1a hy1b hm1a hm1b hd1a hd1b hy2a hy2b hm2a hm2b hd2a hd2b
  simp only [formatDate] at h
  rw [String.ext_iff] at h
  dsimp only at h
  simp only [List.cons.injEq, and_true, true_and] at h
  obtain ⟨e1, e2, e3, e4, e5, e6, e7, e8⟩ := h
  have g1 := digitChar_inj (Nat.mod_lt _ (by norm_num)) (Nat.mod_lt _ (by norm_num)) e1
  have g2 := digitChar_inj (Nat.mod_lt _ (by norm_num)) (Nat.mod_lt _ (by norm_num)) e2
  have g3 := digitChar_inj (Nat.mod_lt _ (by norm_num)) (Nat.mod_lt _ (by norm_num)) e3
  have g4 := digitChar_inj (Nat.mod_lt _ (by norm_num)) (Nat.mod_lt _ (by norm_num)) e4
  have g5 := digitChar_inj (Nat.mod_lt _ (by norm_num)) (Nat.mod_lt _ (by norm_num)) e5
  have g6 := digitChar_inj (Nat.mod_lt _ (by norm_num)) (Nat.mod_lt _ (by norm_num)) e6
  have g7 := digitChar_inj (Nat.mod_lt _ (by norm_num)) (Nat.mod_lt _ (by norm_num)) e7
  have g8 := digitChar_inj (Nat.mod_lt _ (by norm_num)) (Nat.mod_lt _ (by norm_num)) e8
  simp only [CalDate.mk.injEq]
  refine ⟨?_, ?_, ?_⟩ <;> omega

/-- Distinct valid dates give distinct uuid5 name strings for the same
conversation id (append is left-cancellative, the date format injective). -/
theorem threadUuidName_inj (C : String) {d1 d2 : CalDate} (h1 : ValidDate d1)
    (h2 : ValidDate d2) (hne : d1 ≠ d2) :
    threadUuidName C d1 ≠ threadUuidName C d2 := by
  intro h
  exact hne (formatDate_inj h1 h2 (string_append_left_cancel h))

/-- C3: the deterministic thread identity of a turn — the namespace UUID
of conversation id concatenated with today's date — is equal across turns
with the same conversation id and date (it is a function of those two
inputs alone), and the hashed name strings for the same conversation on
two distinct valid dates always differ, so the derived ids differ whenever
the namespace-UUID digest `u5` is collision-free (injective), which is the
UUIDv5 contract the scheme relies on. -/
theorem C3_thread_identity (u5 : String → String) (hinj : Function.Injective u5)
    (C : String) (D1 D2 : CalDate) (h1 : ValidDate D1) (h2 : ValidDate D2)
    (hne : D1 ≠ D2) :
    process_thread_id u5 C D1 = process_thread_id u5 C D1 ∧
    threadUuidName C D1 ≠ threadUuidName C D2 ∧
    process_thread_id u5 C D1 ≠ process_thread_id u5 C D2 := by
  have hname := threadUuidName_inj C h1 h2 hne
  exact ⟨rfl, hname, fun h => hname (hinj h)⟩

/-- Witness for C3: the same conversation on two consecutive days. -/
theorem C3_thread_identity_witness :
    ValidDate { year := 2026, month := 10, day := 12 } ∧
    ValidDate { year := 2026, month := 10, day := 13 } ∧
    process_thread_id (fun s => s) "conv-1" { year := 2026, month := 10, day := 12 }
      ≠ process_thread_id (fun s => s) "conv-1" { year := 2026, month := 10, day := 13 } := by
  refine ⟨by decide, by decide, ?_⟩
  exact (C3_thread_identity (fun s => s) (fun _ _ hx => hx) "conv-1" _ _
    (by decide) (by decide) (by decide)).2.2

/-- When the attachment exposes a download URL, the URL-extraction step of
the download pipeline succeeds with it. -/
theorem attachmentUrlE_ok {a : InAttachment} {u : String}
    (h : attUrlOpt a = some u) : attachmentUrlE a = Except.ok u := by
  unfold attUrlOpt at h
  unfold attachmentUrlE
  cases hc : a.content with
  | none => rw [hc] at h; simp at h
  | some c =>
      rw [hc] at h
      replace h : c.downloadUrl = some u := h
      simp [h]

/-- When every attachment in the list exposes a download URL, the
`mapM` of URL extraction succeeds with exactly those URLs in order. -/
theorem mapM_attachmentUrlE (l : List InAttachment)
    (h : ∀ a ∈ l, (attUrlOpt a).isSome = true) :
    mapMUrls l = Except.ok (l.filterMap attUrlOpt) := by
  induction l with
  | nil => rfl
  | cons a t ih =>
      obtain ⟨u, hu⟩ := Option.isSome_iff_exists.mp (h a (List.mem_cons_self a t))
      have ha := attachmentUrlE_ok hu
      have iht := ih (fun x hx => h x (List.mem_cons_of_mem a hx))
      simp [mapMUrls, ha, iht, List.filterMap_cons, hu]

/-- Zipping the filtered attachments with their fetch results and keeping
the truthy ones lists exactly the names of the attachments whose URL
fetches succeed with non-empty content, in order. -/
theorem zip_success_names (net : String → Option Bytes) (l : List InAttachment)
    (h : ∀ a ∈ l, (attUrlOpt a).isSome = true) :
    ((l.zip ((l.filterMap attUrlOpt).map net)).filter (fun p => bytesTruthy p.2)).map
        (fun p => p.1.name)
      = l.filterMap (fun a => (attUrlOpt a).bind
          (fun u => if bytesTruthy (net u) then some a.name else none)) := by
  induction l with
  | nil => rfl
  | cons a t ih =>
      obtain ⟨u, hu⟩ := Option.isSome_iff_exists.mp (h a (List.mem_cons_self a t))
      have iht := ih (fun x hx => h x (List.mem_cons_of_mem a hx))
      simp only [List.filterMap_cons, hu, List.map_cons, List.zip_cons_cons,
    List.filter_cons]
      cases hn : bytesTruthy (net u) with
      | false => simp [hn, iht]
      | true => simp [hn, iht]

/-- The persisted-file names accumulated by the gather loop are the names
of the attachments whose download yielded truthy bytes, in order, appended
to the accumulator's names. -/
theorem foldl_gather_names (gm : Bytes → Option String)
    (pairs : List (InAttachment × Option Bytes)) :
    ∀ (s : SessionFiles) (acc : List FileDict),
      ((pairs.foldl (gatherStep gm) (s, acc)).2).map (fun f => f.name)
        = acc.map (fun f => f.name)
          ++ (pairs.filter (fun p => bytesTruthy p.2)).map (fun p => p.1.name) := by
  induction pairs with
  | nil => intro s acc; simp
  | cons p t ih =>
      intro s acc
      cases hb : p.2 with
      | none =>
          simp only [List.foldl_cons, List.filter_cons, hb]
          simp only [gatherStep, hb]
          simp [ih, bytesTruthy]
      | some bs =>
          cases hbe : bs.isEmpty with
          | true =>
              simp only [List.foldl_cons, List.filter_cons, hb]
              simp only [gatherStep, hb, hbe]
              simp [ih, bytesTruthy, hbe]
          | false =>
              simp only [List.foldl_cons, List.filter_cons, hb]
              simp only [gatherStep, hb, hbe, persist_file]
              simp [ih, bytesTruthy, hbe]

/-- Every file dict accumulated by the gather loop is present in the final
session's file map (files are only ever appended). -/
theorem foldl_gather_mem (gm : Bytes → Option String)
    (pairs : List (InAttachment × Option Bytes)) :
    ∀ (s : SessionFiles) (acc : List FileDict), (∀ f ∈ acc, f ∈ s.files) →
      ∀ f ∈ (pairs.foldl (gatherStep gm) (s, acc)).2,
        f ∈ ((pairs.foldl (gatherStep gm) (s, acc)).1).files := by
  induction pairs with
  | nil =>
      intro s acc hpre f hf
      simp only [List.foldl_nil] at hf ⊢
      exact hpre f hf
  | cons p t ih =>
      intro s acc hpre
      cases hb : p.2 with
      | none =>
          simp only [List.foldl_cons, gatherStep, hb]
          exact ih s acc hpre
      | some bs =>
          cases hbe : bs.isEmpty with
          | true =>
              simp only [List.foldl_cons, gatherStep, hb, hbe, if_pos]
              exact ih s acc hpre
          | false =>
              simp only [List.foldl_cons, gatherStep, hb, hbe, if_neg, Bool.false_eq_true,
    not_false_eq_true, persist_file]
              refine ih _ _ ?_
              intro f hf
              rcases List.mem_append.mp hf with hl | hr
              · exact List.mem_append.mpr (Or.inl (hpre f hl))
              · exact List.mem_append.mpr (Or.inr hr)

/-- A `filterMap` that ignores attachments without a dict content payload
is unchanged by pre-filtering on that payload. -/
theorem filterMap_filter_content {β : Type} (g : InAttachment → Option β)
    (hg : ∀ a, a.content = none → g a = none) (l : List InAttachment) :
    (l.filter (fun a => a.content.isSome)).filterMap g = l.filterMap g := by
  induction l with
  | nil => rfl
  | cons a t ih =>
      cases hc : a.content with
      | none => simp [List.filter_cons, hc, List.filterMap_cons, hg a hc, ih]
      | some c => simp [List.filter_cons, hc, List.filterMap_cons, ih]

/-- The success-path equation of `download_msagents_files`: once every
filtered attachment yields a URL, the result is the record built from the
gather loop. -/
theorem download_eq_ok (net : String → Option Bytes) (gm : Bytes → Option String)
    (it : String → String) (sess : SessionFiles) (l : List InAttachment)
    (hne : l.isEmpty = false) (urls : List String)
    (hm : mapMUrls (l.filter (fun a => a.content.isSome)) = Except.ok urls) :
    download_msagents_files net gm it sess l
      = Except.ok
          { requests := urls,
            session := (((l.filter (fun a => a.content.isSome)).zip (urls.map net)).foldl
              (gatherStep gm) (sess, [])).1,
            elements :=
              ((((l.filter (fun a => a.content.isSome)).zip (urls.map net)).foldl
                  (gatherStep gm) (sess, [])).2.filter (fun f =>
                ((((l.filter (fun a => a.content.isSome)).zip (urls.map net)).foldl
                    (gatherStep gm) (sess, [])).1).files.any (fun g => g.id = f.id))).map
                (elemOfFile it) } := by
  unfold download_msagents_files
  rw [if_neg (by simp [hne])]
  dsimp only
  rw [hm]

/-- C4 (amended): `download_msagents_files` filters the input to the
attachments exposing a structured (dict) content payload; provided each of
those carries a download URL, it fetches exactly those URLs in input
order, silently drops each attachment whose fetch yields no truthy bytes
(a non-200 response, or a 200 response with an empty body — both falsy
under `if file_bytes:`) while the others proceed, and returns exactly one
file element per download that succeeded with content, in the original
input order; the empty input yields an empty result with no fetches. -/
theorem C4_download_order_and_drops (net : String → Option Bytes)
    (gm : Bytes → Option String) (it : String → String) (sess : SessionFiles)
    (attachments : List InAttachment)
    (hall : ∀ a ∈ attachments, a.content.isSome = true → (attUrlOpt a).isSome = true) :
    ∃ out, download_msagents_files net gm it sess attachments = Except.ok out ∧
      out.requests = spec_download_urls attachments ∧
      out.elements.map (fun e => e.name) = spec_success_names net attachments ∧
      out.elements.length = (spec_success_names net attachments).length ∧
      (attachments = [] → out = { requests := [], session := sess, elements := [] }) := by
  cases he : attachments.isEmpty with
  | true =>
      have hnil : attachments = [] := by
        cases attachments with
        | nil => rfl
        | cons a t => simp at he
      subst hnil
      exact ⟨{ requests := [], session := sess, elements := [] },
        rfl, rfl, rfl, rfl, fun _ => rfl⟩
  | false =>
      have hsub : ∀ a ∈ attachments.filter (fun a => a.content.isSome),
          (attUrlOpt a).isSome = true := by
        intro a ha
        have hps := List.of_mem_filter ha
        exact hall a (List.mem_of_mem_filter ha) hps
      have hmapm := mapM_attachmentUrlE _ hsub
      have hdl := download_eq_ok net gm it sess attachments he _ hmapm
      set atts := attachments.filter (fun a => a.content.isSome) with hatts
      set urls := atts.filterMap attUrlOpt with hurls
      set pr := (atts.zip (urls.map net)).foldl (gatherStep gm) (sess, ([] : List FileDict))
        with hpr
      have hcontent1 : ∀ a : InAttachment, a.content = none → attUrlOpt a = none :=
        fun a h => by simp [attUrlOpt, h]
      have hreq : urls = spec_download_urls attachments := by
        rw [hurls, hatts]
        exact filterMap_filter_content attUrlOpt hcontent1 attachments
      have hmem := foldl_gather_mem gm (atts.zip (urls.map net)) sess [] (by simp)
      rw [← hpr] at hmem
      have hfilt : pr.2.filter (fun f => pr.1.files.any (fun g => g.id = f.id)) = pr.2 := by
        apply List.filter_eq_self.mpr
        intro f hf
        simp only [List.any_eq_true, decide_eq_true_eq]
        exact ⟨f, hmem f hf, rfl⟩
      have hnm := foldl_gather_names gm (atts.zip (urls.map net)) sess []
      rw [← hpr] at hnm
      simp only [List.map_nil, List.nil_append] at hnm
      have hmain : (pr.2.map (elemOfFile it)).map (fun e => e.name)
          = spec_success_names net attachments := by
        rw [List.map_map]
        have hcomp : ((fun e : DownloadedElement => e.name) ∘ elemOfFile it)
            = fun f : FileDict => f.name := rfl
        rw [hcomp, hnm, hurls]
        rw [zip_success_names net atts hsub]
        rw [hatts]
        exact filterMap_filter_content _
          (fun a h => by simp [attUrlOpt, h]) attachments
      refine ⟨_, hdl, hreq, ?_, ?_, ?_⟩
      · rw [hfilt]
        exact hmain
      · rw [hfilt]
        simpa using congrArg List.length hmain
      · intro h
        rw [h] at he
        exact absurd he (by simp)

/-- Witness for C4: four attachments — one without a dict payload, one
whose fetch succeeds with content, one whose fetch is non-200, one whose
fetch is a 200 with empty body — and the instantiated conclusion. -/
theorem C4_download_order_and_drops_witness :
    (∀ a ∈ ([{ name := some "x", content := none },
             { name := some "y", content := some { downloadUrl := some "u1" } },
             { name := some "z", content := some { downloadUrl := some "u2" } },
             { name := some "w", content := some { downloadUrl := some "u3" } }] :
        List InAttachment),
        a.content.isSome = true → (attUrlOpt a).isSome = true) ∧
    (∃ out, download_msagents_files
        (fun u => if u = "u1" then some [7] else if u = "u3" then some [] else none)
        (fun _ => none) (fun t => t) { files := [], nextId := 0 }
        [{ name := some "x", content := none },
         { name := some "y", content := some { downloadUrl := some "u1" } },
         { name := some "z", content := some { downloadUrl := some "u2" } },
         { name := some "w", content := some { downloadUrl := some "u3" } }]
        = Except.ok out ∧
      out.requests = spec_download_urls
        [{ name := some "x", content := none },
         { name := some "y", content := some { downloadUrl := some "u1" } },
         { name := some "z", content := some { downloadUrl := some "u2" } },
         { name := some "w", content := some { downloadUrl := some "u3" } }] ∧
      out.elements.map (fun e => e.name) = spec_success_names
        (fun u => if u = "u1" then some [7] else if u = "u3" then some [] else none)
        [{ name := some "x", content := none },
         { name := some "y", content := some { downloadUrl := some "u1" } },
         { name := some "z", content := some { downloadUrl := some "u2" } },
         { name := some "w", content := some { downloadUrl := some "u3" } }] ∧
      out.elements.length = (spec_success_names
        (fun u => if u = "u1" then some [7] else if u = "u3" then some [] else none)
        [{ name := some "x", content := none },
         { name := some "y", content := some { downloadUrl := some "u1" } },
         { name := some "z", content := some { downloadUrl := some "u2" } },
         { name := some "w", content := some { downloadUrl := some "u3" } }]).length ∧
      (([{ name := some "x", content := none },
         { name := some "y", content := some { downloadUrl := some "u1" } },
         { name := some "z", content := some { downloadUrl := some "u2" } },
         { name := some "w", content := some { downloadUrl := some "u3" } }] :
          List InAttachment) = [] →
        out = { requests := [], session := { files := [], nextId := 0 }, elements := [] })) := by
  refine ⟨by decide, ?_⟩
  exact C4_download_order_and_drops
    (fun u => if u = "u1" then some [7] else if u = "u3" then some [] else none)
    (fun _ => none) (fun t => t) { files := [], nextId := 0 }
    [{ name := some "x", content := none },
     { name := some "y", content := some { downloadUrl := some "u1" } },
     { name := some "z", content := some { downloadUrl := some "u2" } },
     { name := some "w", content := some { downloadUrl := some "u3" } }] (by decide)

/-- C4 counterexample: the claim says the pipeline "filters to those
exposing a structured content payload **with a download URL**" and only
drops attachments silently; in the code the filter keeps every dict
payload, so a dict payload without a `downloadUrl` reaches the fetch step,
which is handed `None` as a URL and raises — the call errors instead of
returning the empty element list the claim predicts. -/
theorem C4_counterexample :
    download_msagents_files (fun _ => none) (fun _ => none) (fun t => t)
      { files := [], nextId := 0 }
      [{ name := some "a", content := some { downloadUrl := none } }]
      = Except.error DlError.invalidUrl := by
  rfl

end MsAgents
